import Mathlib

/-!
Shallow embedding of the `resterror` Go package (truescotian/resterror).

The authoritative sources are `src/Error.go` (the `Error` struct, its
`ResponseBody` / `ResponseHeaders` / `Error` methods, and the chain
resolvers `ErrorKind`, `ErrorMessage`, `Is`), `src/codes.go` (the
classification code table) and `src/handler.go` (the `rootHandler.ServeHttp`
boundary dispatch).  Go `error` values are modelled as `Option GoErr`
(`none` is the nil interface); a `GoErr` is either a chain node
(the `*Error` struct of the package) or a foreign error value carrying
only its `Error()` text.  Each resolver is split into a wrapper on
`Option GoErr` handling the `err == nil` test and a total function on
`GoErr` for the non-nil cases; the Go originals only ever recurse on a
cause they have checked to be non-nil, so the two-level form computes the
same values.
-/

namespace Resterror

/-- Classification codes from `src/codes.go`. -/
def ECONFLICT : String := "conflict"

def PERMISSION : String := "permission"

def EINTERNAL : String := "internal"

def EINVALID : String := "invalid"

def ENOTFOUND : String := "item_does_not_exist"

def EEXIST : String := "item_already_exists"

def OTHER : String := "other"

def MethodNotAllowed : String := "method_not_allowed"

def EPARSE : String := "parse_error"

/-- The full classification table of `src/codes.go`, in declaration order. -/
def classificationCodes : List String :=
  [ECONFLICT, PERMISSION, EINTERNAL, EINVALID, ENOTFOUND, EEXIST, OTHER,
   MethodNotAllowed, EPARSE]

/-- A Go error value: either the package's `*Error` chain node
(`Kind`, `Status`, `Message`, `Op`, `Err` fields of `src/Error.go`) or a
foreign error exposing only its `Error()` string.  The `Err` field is
`Option GoErr`, `none` standing for a nil cause. -/
inductive GoErr : Type where
  | node (kind : String) (status : Int) (message : String) (op : String)
      (err : Option GoErr)
  | foreign (msg : String)

/-- The non-nil cases of `ErrorKind` from `src/Error.go` (lines 112-122):
a chain node with non-empty `Kind` gives that `Kind`; a chain node with
empty `Kind` and non-nil `Err` recurses on `Err`; everything else
(empty `Kind` with nil `Err`, or a foreign error) gives `EINTERNAL`. -/
def errorKindGo : GoErr → String
  | .foreign _ => EINTERNAL
  | .node kind _ _ _ err =>
    if kind ≠ "" then kind
    else
      match err with
      | some cause => errorKindGo cause
      | none => EINTERNAL

/-- `ErrorKind` from `src/Error.go`: nil errors give `""`, the rest is
`errorKindGo`. -/
def ErrorKind : Option GoErr → String
  | none => ""
  | some e => errorKindGo e

/-- The generic fallback text of `ErrorMessage` in `src/Error.go`. -/
def genericMessage : String :=
  "An internal error has occurred. Please contact technical support."

/-- The non-nil cases of `ErrorMessage` from `src/Error.go`
(lines 135-144): a chain node with non-empty `Message` gives that
`Message`; a chain node with empty `Message` and non-nil `Err` recurses
on `Err`; everything else gives the generic support text. -/
def errorMessageGo : GoErr → String
  | .foreign _ => genericMessage
  | .node _ _ message _ err =>
    if message ≠ "" then message
    else
      match err with
      | some cause => errorMessageGo cause
      | none => genericMessage

/-- `ErrorMessage` from `src/Error.go`: nil errors give `""`, the rest is
`errorMessageGo`. -/
def ErrorMessage : Option GoErr → String
  | none => ""
  | some e => errorMessageGo e

/-- The `*Error` cases of `Is` from `src/Error.go` (lines 150-162): at a
node whose `Kind` differs from `OTHER` it compares `Kind` with the query;
at a node whose `Kind` equals `OTHER` it recurses into a non-nil `Err`
and otherwise returns false. -/
def isKindGo (kind : String) : GoErr → Bool
  | .foreign _ => false
  | .node k _ _ _ err =>
    if k ≠ OTHER then k == kind
    else
      match err with
      | some cause => isKindGo kind cause
      | none => false

/-- `Is` from `src/Error.go`: the type assertion `err.(*Error)` fails on
nil and on foreign errors (returning false); chain nodes go to
`isKindGo`. -/
def Is (kind : String) : Option GoErr → Bool
  | none => false
  | some (.foreign _) => false
  | some e => isKindGo kind e

/-- The `Error` method of `src/Error.go` (lines 72-91): writes `Op ++ ": "`
whenever `Op` is non-empty, then, if `Err` is non-nil, the cause's own
`Error()` string, and otherwise `"<" ++ Kind ++ "> "` (when `Kind` is
non-empty) followed by `Message`. -/
def errString : GoErr → String
  | .foreign msg => msg
  | .node kind _ message op err =>
    (if op ≠ "" then op ++ ": " else "") ++
      match err with
      | some cause => errString cause
      | none => (if kind ≠ "" then "<" ++ kind ++ "> " else "") ++ message

/-- `(*Error).ResponseHeaders` from `src/Error.go` (lines 52-57), as
written: the first component of the returned pair is `e.Kind` (a string),
not `e.Status`.  The header map literal of the source is malformed Go
(`"X-Content-Type-Options", "nosniff"` lacks the colon of a map entry);
it is embedded here as the key/value pair those two tokens spell. -/
def ResponseHeaders (e : GoErr) : String × List (String × String) :=
  match e with
  | .foreign _ => ("", [])
  | .node kind _ _ _ _ =>
    (kind,
     [("Content-Type", "application/json; charset=utf-8"),
      ("X-Content-Type-Options", "nosniff")])

/-- JSON documents, as produced by Go's `encoding/json` on the `Error`
struct: strings, integers, `null` and key/value objects suffice. -/
inductive JsonVal : Type where
  | str (s : String)
  | num (n : Int)
  | null
  | obj (fields : List (String × JsonVal))

/-- `json.Marshal` applied to the `Error` struct of `src/Error.go`: every
exported field is serialized, including `Err`.  A nil `Err` marshals to
`null`; an `*Error` cause marshals recursively; a foreign error value
marshals to an empty object (no exported fields). -/
def marshalError : GoErr → JsonVal
  | .foreign _ => .obj []
  | .node kind st message op err =>
    .obj [("Kind", .str kind), ("Status", .num st),
          ("Message", .str message), ("Op", .str op),
          ("Err", match err with
                  | none => .null
                  | some cause => marshalError cause)]

/-- `(*Error).ResponseBody` from `src/Error.go` (lines 44-50):
`json.Marshal(e)` with the error wrapped on failure.  Marshalling the
`Error` struct (strings, an int and an acyclic chain) cannot fail, so the
embedding always succeeds with the document `marshalError e`. -/
def ResponseBody (e : GoErr) : Except String JsonVal :=
  .ok (marshalError e)

/-- A value implementing the `ClientError` interface of the package
(`src/unnamed/part_000`): the results of its three methods.
`ResponseHeaders` is modelled with the interface's declared signature
`(int, map[string]string)`, which is what `rootHandler.ServeHttp`
consumes. -/
structure ClientError : Type where
  errorString : String
  respBody : Except String JsonVal
  respHeaders : Int × List (String × String)

/-- A non-nil Go error value as seen by the boundary dispatch of
`src/handler.go`: either it satisfies the `ClientError` type assertion or
it is a raw error exposing only its `Error()` text. -/
inductive ErrVal : Type where
  | client (c : ClientError)
  | raw (msg : String)

/-- The writes `rootHandler.ServeHttp` performs on the response writer:
the status passed to `WriteHeader`, the headers set before it, and the
body bytes written (as the marshalled document), if any. -/
structure HttpResponse : Type where
  status : Int
  headers : List (String × String)
  body : Option JsonVal

/-- `rootHandler.ServeHttp` from `src/handler.go` (lines 60-88), given the
error returned by the wrapped handler.  Returns the log lines emitted and
the response written (`none` when the handler succeeded and nothing is
written).  A nil error returns immediately; a failed `ClientError` type
assertion writes a bare 500; a failed `ResponseBody()` call logs the
serialization error and writes a bare 500; otherwise the headers, the
status from `ResponseHeaders()` and the marshalled body are written. -/
def ServeHttp : Option ErrVal → List String × Option HttpResponse
  | none => ([], none)
  | some e =>
    let display := match e with
      | .client c => c.errorString
      | .raw msg => msg
    let firstLog := "An error occured. " ++ display
    match e with
    | .raw _ => ([firstLog], some ⟨500, [], none⟩)
    | .client c =>
      match c.respBody with
      | .error msg =>
        ([firstLog, "An error accured: " ++ msg], some ⟨500, [], none⟩)
      | .ok body =>
        ([firstLog],
         some ⟨c.respHeaders.1, c.respHeaders.2, some body⟩)

/-- Builds a chain node per quadruple `(kind, status, message, op)`, the
head of the list outermost, ending in the given tail error. -/
def chainOf : List (String × Int × String × String) → Option GoErr →
    Option GoErr
  | [], tail => tail
  | (k, s, m, o) :: rest, tail => some (.node k s m o (chainOf rest tail))

/-- Modelled from the claim's words for comparison with `Is`: the `Kind`
of the nearest chain node under the traversal that treats a
classification equal to `OTHER` as a delegation into the cause; `none`
when the traversal leaves the chain (foreign error or nil cause) before
reaching a non-`OTHER` node. -/
def specNearestKindGo : GoErr → Option String
  | .foreign _ => none
  | .node k _ _ _ err =>
    if k = OTHER then
      match err with
      | some cause => specNearestKindGo cause
      | none => none
    else some k

/-- `specNearestKindGo` extended to nil errors. -/
def specNearestKind : Option GoErr → Option String
  | none => none
  | some e => specNearestKindGo e

/-- Modelled from the claim's words for comparison with `ErrorMessage`:
the nearest chain node's non-empty `Message` along the `Err` chain,
without ever descending into a foreign error. -/
def specNearestMessageGo : GoErr → Option String
  | .foreign _ => none
  | .node _ _ message _ err =>
    if message ≠ "" then some message
    else
      match err with
      | some cause => specNearestMessageGo cause
      | none => none

/-- Field lookup in a marshalled JSON object. -/
def jsonField (j : JsonVal) (key : String) : Option JsonVal :=
  match j with
  | .obj fields => fields.lookup key
  | _ => none

/-- Whether the string `s` occurs as a string value somewhere inside the
JSON document, at any depth. -/
def jsonContainsStr (s : String) : JsonVal → Bool
  | .str t => t == s
  | .num _ => false
  | .null => false
  | .obj fields => containsAux fields
where
  containsAux : List (String × JsonVal) → Bool
    | [] => false
    | (_, v) :: rest => jsonContainsStr s v || containsAux rest

/-! ## Helper lemmas -/

lemma chainOf_some (l : List (String × Int × String × String)) (t : GoErr) :
    ∃ e, chainOf l (some t) = some e := by
  cases l with
  | nil => exact ⟨t, rfl⟩
  | cons q rest =>
    obtain ⟨k, s, m, o⟩ := q
    exact ⟨.node k s m o (chainOf rest (some t)), rfl⟩

lemma errorKind_node_set (k : String) (s : Int) (m o : String)
    (c : Option GoErr) (hk : k ≠ "") :
    ErrorKind (some (.node k s m o c)) = k := by
  cases c <;> simp [ErrorKind, errorKindGo, hk]

lemma errorKind_node_unset_cause (s : Int) (m o : String) (c : GoErr) :
    ErrorKind (some (.node "" s m o (some c))) = ErrorKind (some c) := by
  simp [ErrorKind, errorKindGo]

lemma errorKind_chain_empty (pre : List (String × Int × String × String))
    (h : ∀ q ∈ pre, q.1 = "") (t : GoErr) :
    ErrorKind (chainOf pre (some t)) = ErrorKind (some t) := by
  induction pre with
  | nil => rfl
  | cons q rest ih =>
    obtain ⟨k, s, m, o⟩ := q
    have hk : k = "" := h _ (List.mem_cons_self _ _)
    subst hk
    obtain ⟨e, he⟩ := chainOf_some rest t
    have hrest : ∀ q ∈ rest, q.1 = "" := fun q hq => h q (List.mem_cons_of_mem _ hq)
    calc ErrorKind (chainOf ((("", s, m, o)) :: rest) (some t))
        = ErrorKind (some (.node "" s m o (chainOf rest (some t)))) := rfl
      _ = ErrorKind (chainOf rest (some t)) := by
            rw [he]; exact errorKind_node_unset_cause s m o e
      _ = ErrorKind (some t) := ih hrest

lemma errorKind_all_empty (quads : List (String × Int × String × String))
    (hne : quads ≠ []) (h : ∀ q ∈ quads, q.1 = "") (tail : Option String) :
    ErrorKind (chainOf quads (tail.map GoErr.foreign)) = EINTERNAL := by
  induction quads with
  | nil => exact absurd rfl hne
  | cons q rest ih =>
    obtain ⟨k, s, m, o⟩ := q
    have hk : k = "" := h _ (List.mem_cons_self _ _)
    subst hk
    have hrest : ∀ q ∈ rest, q.1 = "" := fun q hq => h q (List.mem_cons_of_mem _ hq)
    cases rest with
    | nil =>
      cases tail with
      | none => simp [chainOf, ErrorKind, errorKindGo]
      | some f => simp [chainOf, ErrorKind, errorKindGo]
    | cons q' rest' =>
      have step : chainOf ((("", s, m, o)) :: q' :: rest')
          (tail.map GoErr.foreign) =
          some (.node "" s m o (chainOf (q' :: rest') (tail.map GoErr.foreign))) := rfl
      obtain ⟨k', s', m', o'⟩ := q'
      rw [step, chainOf, errorKind_node_unset_cause]
      exact ih (by simp) hrest

lemma isKindGo_iff_specNearestKindGo (K : String) :
    ∀ g : GoErr, (isKindGo K g = true ↔ specNearestKindGo g = some K)
  | .foreign m => by simp [isKindGo, specNearestKindGo]
  | .node k s m o none => by
    by_cases hk : k = OTHER
    · subst hk
      simp [isKindGo, specNearestKindGo]
    · simp [isKindGo, specNearestKindGo, hk]
  | .node k s m o (some c) => by
    by_cases hk : k = OTHER
    · subst hk
      have ih := isKindGo_iff_specNearestKindGo K c
      simpa [isKindGo, specNearestKindGo] using ih
    · simp [isKindGo, specNearestKindGo, hk]

lemma is_iff_specNearestKind (K : String) (e : Option GoErr) :
    Is K e = true ↔ specNearestKind e = some K := by
  cases e with
  | none => simp [Is, specNearestKind]
  | some g =>
    cases g with
    | foreign m => simp [Is, specNearestKind, specNearestKindGo]
    | node k s m o c =>
      simpa [Is, specNearestKind] using
        isKindGo_iff_specNearestKindGo K (.node k s m o c)

lemma specNearestKindGo_ne_other :
    ∀ (g : GoErr) (k : String), specNearestKindGo g = some k → k ≠ OTHER
  | .foreign m, k => by simp [specNearestKindGo]
  | .node k' s m o err, k => by
    by_cases hk : k' = OTHER
    · subst hk
      cases err with
      | none => simp [specNearestKindGo]
      | some c =>
        intro h
        exact specNearestKindGo_ne_other c k
          (by simpa [specNearestKindGo] using h)
    · intro h
      have hk' : k' = k := by
        cases err <;> simpa [specNearestKindGo, hk] using h
      subst hk'
      exact hk

lemma errorMessage_char :
    ∀ g : GoErr,
      errorMessageGo g = (specNearestMessageGo g).getD genericMessage
  | .foreign m => by simp [errorMessageGo, specNearestMessageGo]
  | .node k s m o none => by
    by_cases hm : m = ""
    · subst hm
      simp [errorMessageGo, specNearestMessageGo]
    · simp [errorMessageGo, specNearestMessageGo, hm]
  | .node k s m o (some c) => by
    by_cases hm : m = ""
    · subst hm
      have ih := errorMessage_char c
      simpa [errorMessageGo, specNearestMessageGo] using ih
    · simp [errorMessageGo, specNearestMessageGo, hm]

lemma code_ne_empty (K : String) (hK : K ∈ classificationCodes) : K ≠ "" := by
  intro h
  subst h
  revert hK
  decide

/-! ## Claims -/

/-- C1: `ErrorKind` returns `""` on nil errors, a node's non-empty `Kind`,
recurses on the cause when the node's `Kind` is empty and the cause is
non-nil, and returns `EINTERNAL` otherwise (empty `Kind` with nil cause,
or a foreign error).  Consequently a chain of depth N ≥ 1 whose outer
nodes all have empty `Kind` and whose innermost node has `Kind = X ≠ ""`
resolves to `X`, and a chain in which no node sets a `Kind` resolves to
`EINTERNAL`. -/
theorem C1_errorKind_resolution :
    (ErrorKind none = "") ∧
    (∀ k s m o c, k ≠ "" → ErrorKind (some (.node k s m o c)) = k) ∧
    (∀ s m o c, ErrorKind (some (.node "" s m o (some c))) = ErrorKind (some c)) ∧
    (∀ s m o, ErrorKind (some (.node "" s m o none)) = EINTERNAL) ∧
    (∀ f, ErrorKind (some (.foreign f)) = EINTERNAL) ∧
    (∀ pre X s m o tail, (∀ q ∈ pre, q.1 = "") → X ≠ "" →
      ErrorKind (chainOf pre
        (some (.node X s m o (Option.map GoErr.foreign tail)))) = X) ∧
    (∀ quads tail, quads ≠ [] → (∀ q ∈ quads, q.1 = "") →
      ErrorKind (chainOf quads (Option.map GoErr.foreign tail)) = EINTERNAL) := by
  refine ⟨rfl, ?_, ?_, ?_, ?_, ?_, ?_⟩
  · exact fun k s m o c hk => errorKind_node_set k s m o c hk
  · exact fun s m o c => errorKind_node_unset_cause s m o c
  · intro s m o; rfl
  · intro f; rfl
  · intro pre X s m o tail hpre hX
    rw [errorKind_chain_empty pre hpre]
    exact errorKind_node_set X s m o _ hX
  · exact fun quads tail hne h => errorKind_all_empty quads hne h tail

/-- Witness for C1: a depth-3 chain whose two outer nodes have empty
`Kind` and whose innermost node carries `ECONFLICT` resolves to
`ECONFLICT`, and a depth-2 all-empty chain ending in a foreign error
resolves to `EINTERNAL`. -/
theorem C1_errorKind_resolution_witness :
    ErrorKind (chainOf [("", 0, "", "op1"), ("", 0, "", "op2")]
      (some (.node ECONFLICT 409 "m" "op3" (Option.map GoErr.foreign none)))) =
        ECONFLICT ∧
    ErrorKind (chainOf [("", 500, "", "op1"), ("", 0, "x", "op2")]
      (Option.map GoErr.foreign (some "db down"))) = EINTERNAL :=
  ⟨C1_errorKind_resolution.2.2.2.2.2.1 [("", 0, "", "op1"), ("", 0, "", "op2")]
      ECONFLICT 409 "m" "op3" none (by decide) (by decide),
   C1_errorKind_resolution.2.2.2.2.2.2 [("", 500, "", "op1"), ("", 0, "x", "op2")]
      (some "db down") (by decide) (by decide)⟩

/-- C2: evaluating `(*Error).ResponseHeaders` as written in `src/Error.go`
at the method-not-allowed node of `src/handler.go`: the first component
of the pair is the node's `Kind` string `"method_not_allowed"`, not the
numeric `Status` 405 the claim (and the `ClientError` interface
declaration, and the handler's `w.WriteHeader(status)` call) require. -/
theorem C2_responseHeaders_evaluation :
    (∀ k s m o c, (ResponseHeaders (.node k s m o c)).1 = k) ∧
    ResponseHeaders
        (.node MethodNotAllowed 405 "Method not allowed" "testHandler" none) =
      ("method_not_allowed",
       [("Content-Type", "application/json; charset=utf-8"),
        ("X-Content-Type-Options", "nosniff")]) := by
  exact ⟨fun k s m o c => rfl, rfl⟩

/-- C3 counterexample: the node `(op="A", status=409, message="m",
classification=ECONFLICT, cause=nil)` displays as `"A: <conflict> m"`,
not as the claimed `"<conflict> m"`: the `Error` method prints the `Op`
prefix even when the cause is nil. -/
theorem C3_display_counterexample :
    errString (.node ECONFLICT 409 "m" "A" none) = "A: <conflict> m" ∧
    errString (.node ECONFLICT 409 "m" "A" none) ≠ "<conflict> m" := by
  exact ⟨by decide, by decide⟩

/-- C3 amended: for every chain node whose cause is nil, the `Error`
method returns the operation prefix `op ++ ": "` (omitted when `op` is
empty) followed by `"<" ++ kind ++ "> "` (omitted when `kind` is empty)
followed by the message; the concrete conflict node therefore displays
as `"A: <conflict> m"`. -/
theorem C3_display_amended :
    (∀ k s m o, errString (.node k s m o none) =
      (if o = "" then "" else o ++ ": ") ++
      (if k = "" then "" else "<" ++ k ++ "> ") ++ m) ∧
    errString (.node ECONFLICT 409 "m" "A" none) = "A: <conflict> m" := by
  constructor
  · intro k s m o
    by_cases ho : o = "" <;> by_cases hk : k = "" <;>
      simp [errString, ho, hk, String.append_assoc]
  · decide

/-- C4: for every classification code `K` of `src/codes.go`, `Is K err`
is true exactly when the nearest node under the OTHER-delegation
traversal exists and carries the non-empty, non-`OTHER` classification
`K`; moreover a node explicitly classified `EINVALID` never matches a
query for `ENOTFOUND`, whatever its cause is (so `Is` never matches a
query through a node with a different explicit classification). -/
theorem C4_is_nearest_classification (K : String)
    (hK : K ∈ classificationCodes) (e : Option GoErr) :
    (Is K e = true ↔ (specNearestKind e = some K ∧ K ≠ "" ∧ K ≠ OTHER)) ∧
    (∀ s m o c, Is ENOTFOUND (some (.node EINVALID s m o c)) = false) := by
  constructor
  · constructor
    · intro h
      have h1 := (is_iff_specNearestKind K e).mp h
      refine ⟨h1, code_ne_empty K hK, ?_⟩
      cases e with
      | none => simp [specNearestKind] at h1
      | some g => exact specNearestKindGo_ne_other g K (by simpa [specNearestKind] using h1)
    · rintro ⟨h1, -, -⟩
      exact (is_iff_specNearestKind K e).mpr h1
  · intro s m o c
    cases c <;> simp [Is, isKindGo, EINVALID, ENOTFOUND, OTHER]

/-- Witness for C4: with `K := ENOTFOUND` (a classification code) and the
chain `OTHER ∘ ENOTFOUND`, both sides of the equivalence hold: `Is`
matches and the nearest non-`OTHER` node carries `ENOTFOUND`. -/
theorem C4_is_nearest_classification_witness :
    ENOTFOUND ∈ classificationCodes ∧
    Is ENOTFOUND (some (.node OTHER 500 "" "outerOp"
      (some (.node ENOTFOUND 404 "missing" "innerOp" none)))) = true :=
  ⟨by decide,
   ((C4_is_nearest_classification ENOTFOUND (by decide)
      (some (.node OTHER 500 "" "outerOp"
        (some (.node ENOTFOUND 404 "missing" "innerOp" none))))).1).mpr
     ⟨by decide, by decide, by decide⟩⟩

/-- C5: a chain node whose own `Kind` is empty never matches any
classification-code query, whatever its cause is — only the `OTHER`
sentinel delegates to the cause; an empty `Kind` is simply a non-match. -/
theorem C5_empty_kind_no_match (K : String) (hK : K ∈ classificationCodes)
    (s : Int) (m o : String) (c : Option GoErr) :
    Is K (some (.node "" s m o c)) = false := by
  have hK' : K ≠ "" := code_ne_empty K hK
  cases c <;> simp [Is, isKindGo, OTHER, Ne.symm hK']

/-- Witness for C5: the query `ECONFLICT` does not match an unclassified
node wrapping a cause that itself carries `ECONFLICT`. -/
theorem C5_empty_kind_no_match_witness :
    ECONFLICT ∈ classificationCodes ∧
    Is ECONFLICT (some (.node "" 409 "m" "op"
      (some (.node ECONFLICT 409 "m" "op" none)))) = false :=
  ⟨by decide,
   C5_empty_kind_no_match ECONFLICT (by decide) 409 "m" "op"
     (some (.node ECONFLICT 409 "m" "op" none))⟩

/-- C6: `ErrorMessage` returns `""` on nil errors and otherwise the
nearest chain node's non-empty `Message`, falling back to the generic
support text when no node on the path sets one; the traversal never
takes a message from a foreign error (a node wrapping a foreign error
without its own message yields the generic text), and the parse-error
node of `src/handler.go` resolves to `"Unable to marshal resource"`. -/
theorem C6_errorMessage_resolution :
    (ErrorMessage none = "") ∧
    (∀ g : GoErr,
      ErrorMessage (some g) = (specNearestMessageGo g).getD genericMessage) ∧
    (∀ k s o f, ErrorMessage (some (.node k s "" o (some (.foreign f)))) =
      genericMessage) ∧
    ErrorMessage (some (.node EPARSE 400 "Unable to marshal resource"
      "testHandler" (some (.foreign "invalid character at offset 3")))) =
      "Unable to marshal resource" := by
  refine ⟨rfl, ?_, ?_, rfl⟩
  · exact fun g => errorMessage_char g
  · intro k s o f
    simp [ErrorMessage, errorMessageGo]

/-- C7 counterexample: `ResponseBody` does not serialize only the node's
own fields — for a conflict node wrapping an invalid node, the marshalled
document's `Err` field is the full marshalled cause, and the cause's
message text occurs inside the body. -/
theorem C7_body_counterexample :
    jsonField (marshalError (.node ECONFLICT 409 "outer message" "OuterOp"
        (some (.node EINVALID 422 "inner secret detail" "InnerOp" none))))
      "Err" =
      some (marshalError (.node EINVALID 422 "inner secret detail" "InnerOp" none)) ∧
    jsonContainsStr "inner secret detail"
      (marshalError (.node ECONFLICT 409 "outer message" "OuterOp"
        (some (.node EINVALID 422 "inner secret detail" "InnerOp" none)))) = true := by
  exact ⟨rfl, rfl⟩

/-- C7 amended: `ResponseBody` marshals every field of the node — its
classification, status, message and operation label — and also its `Err`
field, recursively, so the full chain of wrapped causes is part of the
document (`null` when the cause is nil). -/
theorem C7_body_serializes_chain :
    (∀ e, ResponseBody e = .ok (marshalError e)) ∧
    (∀ k s m o c,
      jsonField (marshalError (.node k s m o c)) "Kind" = some (.str k) ∧
      jsonField (marshalError (.node k s m o c)) "Status" = some (.num s) ∧
      jsonField (marshalError (.node k s m o c)) "Message" = some (.str m) ∧
      jsonField (marshalError (.node k s m o c)) "Op" = some (.str o)) ∧
    (∀ k s m o cc, jsonField (marshalError (.node k s m o (some cc))) "Err" =
      some (marshalError cc)) ∧
    (∀ k s m o, jsonField (marshalError (.node k s m o none)) "Err" =
      some .null) := by
  refine ⟨fun e => rfl, ?_, ?_, ?_⟩
  · intro k s m o c
    cases c <;> exact ⟨rfl, rfl, rfl, rfl⟩
  · intro k s m o cc; rfl
  · intro k s m o; rfl

/-- C8: in `rootHandler.ServeHttp`, a classified error whose
`ResponseBody()` call fails produces exactly the opaque 500 response —
no headers set, no body written — regardless of the error's display
string or metadata, with the serialization error only logged; and every
error failing the `ClientError` type assertion produces the same opaque
500 with no content derived from the error. -/
theorem C8_boundary_opaque_500 :
    (∀ es msg rh, ServeHttp (some (.client ⟨es, .error msg, rh⟩)) =
      (["An error occured. " ++ es, "An error accured: " ++ msg],
       some ⟨500, [], none⟩)) ∧
    (∀ msg, ServeHttp (some (.raw msg)) =
      (["An error occured. " ++ msg], some ⟨500, [], none⟩)) := by
  exact ⟨fun es msg rh => rfl, fun msg => rfl⟩

/-- C9: on a node classified `OTHER` wrapping a cause with a specific
(non-`OTHER`) classification `K`, `ErrorKind` treats the non-empty
`OTHER` as authoritative and returns it, while `Is` treats `OTHER` as a
delegation and matches `K` on the cause — the two lookups name different
authoritative codes on the same chain. -/
theorem C9_other_divergence (K : String) (hK : K ≠ OTHER)
    (s s' : Int) (m m' o o' : String) (c : Option GoErr) :
    ErrorKind (some (.node OTHER s m o
      (some (.node K s' m' o' c)))) = OTHER ∧
    Is K (some (.node OTHER s m o (some (.node K s' m' o' c)))) = true := by
  constructor
  · exact errorKind_node_set OTHER s m o _ (by decide)
  · cases c <;> simp [Is, isKindGo, hK]

/-- Witness for C9: the chain `OTHER ∘ ECONFLICT` resolves its kind to
`OTHER` while `Is ECONFLICT` matches it. -/
theorem C9_other_divergence_witness :
    ErrorKind (some (.node OTHER 500 "" "outerOp"
      (some (.node ECONFLICT 409 "m" "innerOp" none)))) = OTHER ∧
    Is ECONFLICT (some (.node OTHER 500 "" "outerOp"
      (some (.node ECONFLICT 409 "m" "innerOp" none)))) = true :=
  C9_other_divergence ECONFLICT (by decide) 500 409 "" "m" "outerOp" "innerOp" none

/-- C10: a leaf node explicitly classified `OTHER` (nil cause) matches no
classification query at all, including the query for `OTHER` itself. -/
theorem C10_other_leaf_no_match (K : String) (s : Int) (m o : String) :
    Is K (some (.node OTHER s m o none)) = false := by
  simp [Is, isKindGo]

end Resterror
